import Mathlib

/-!
Verification development for the SwiftGrid worker core
(apps/worker/src: main.rs, events.rs, retry.rs, cancellation.rs,
nodes/{delay,subflow,map}.rs).

The Rust sources are shallowly embedded: pure functions become Lean
functions, stateful database/queue code becomes explicit state passing
with effect traces, machine integers become Nat/Int (with an explicit
mod 2^64 where u64 overflow is reachable), and fallible code returns
Except.  UUIDs are modelled as strings already in parsed form (a job
whose run_id string fails UUID parsing behaves as a job with no run id,
exactly as in main.rs where `run_id = job.run_id.and_then(parse.ok)`).
Wall-clock readings and floating-point diagnostic fields (durations,
progress ratios, throughput statistics) are not modelled; JSON fields
holding them are embedded as `Json.null`.
-/

/-- Minimal JSON value model (serde_json::Value).  Floating-point
numbers do not occur in the modelled fragments except as unmodelled
diagnostic fields, embedded as `null`. -/
inductive Json where
  | null : Json
  | bool : Bool → Json
  | num : Int → Json
  | str : String → Json
  | arr : List Json → Json
  | obj : List (String × Json) → Json

/-- `body.get("key")` on a JSON object (serde_json::Value::get). -/
def Json.get : Json → String → Option Json
  | Json.obj fields, key => (fields.lookup key)
  | _, _ => none

/-- Run identifiers (uuid::Uuid), modelled as strings. -/
abbrev Uuid := String

/-- Does `pat` match a prefix of `s` (on character lists)? -/
def headMatches : List Char → List Char → Bool
  | [], _ => true
  | _ :: _, [] => false
  | a :: as, b :: bs => a == b && headMatches as bs

/-- Does `pat` occur somewhere in `s` (on character lists)? -/
def occursIn (pat s : List Char) : Bool :=
  match s with
  | [] => headMatches pat []
  | _ :: rest => headMatches pat s || occursIn pat rest

/-- Substring occurrence test (Rust `str::contains`). -/
def containsSub (s pat : String) : Bool :=
  occursIn pat.data s.data

-- ===========================================================================
-- types.rs — node payload data (fields the claims inspect; payloads no
-- claim inspects are collapsed to Unit and marked below)
-- ===========================================================================

/-- DelayNodeData (types.rs). -/
structure DelayNodeData where
  duration_ms : Nat
  duration_str : Option String
deriving DecidableEq

/-- DelayResumeData (types.rs). -/
structure DelayResumeData where
  original_delay_ms : Nat
deriving DecidableEq

/-- SubFlowNodeData (types.rs). -/
structure SubFlowNodeData where
  workflow_id : Int
  version_id : Option String
  input : Option Json
  fail_on_error : Bool
  current_depth : Nat
  depth_limit : Nat
  timeout_ms : Nat
  output_path : Option String
  max_retries : Nat

/-- SubFlowResumeData (types.rs). -/
structure SubFlowResumeData where
  child_run_id : String
  output : Option Json
  success : Bool
  error : Option String

/-- MapNodeData (used by nodes/map.rs; the struct itself is declared in
the shared types module). -/
structure MapNodeData where
  workflow_id : Int
  version_id : Option String
  items : List Json
  concurrency : Nat
  fail_fast : Bool
  timeout_ms : Option Nat
  current_depth : Nat
  depth_limit : Nat

/-- MapStepData (used by nodes/map.rs). -/
structure MapStepData where
  batch_id : String
deriving DecidableEq

/-- MapChildCompleteData (used by nodes/map.rs).  `item_index` is a
signed integer: -1 is the scheduler-injected finalize marker. -/
structure MapChildCompleteData where
  batch_id : String
  item_index : Int
  child_run_id : String
  success : Bool
  output : Option Json
  error : Option String

/-- NodeType (types.rs plus the map variants matched in main.rs).
Payloads that no claim inspects (HTTP, code, webhook, router, LLM) are
collapsed to Unit: only the constructor identity of those kinds is ever
consulted by the embedded code. -/
inductive NodeType where
  | http : Unit → NodeType
  | code : Unit → NodeType
  | delay : DelayNodeData → NodeType
  | delayResume : DelayResumeData → NodeType
  | webhookWait : Unit → NodeType
  | webhookResume : Unit → NodeType
  | router : Unit → NodeType
  | llm : Unit → NodeType
  | subFlow : SubFlowNodeData → NodeType
  | subFlowResume : SubFlowResumeData → NodeType
  | map : MapNodeData → NodeType
  | mapStep : MapStepData → NodeType
  | mapChildComplete : MapChildCompleteData → NodeType

/-- WorkerJob (types.rs).  `run_id` is the parsed form: main.rs turns
the optional string into `Option<Uuid>` before any use. -/
structure WorkerJob where
  id : String
  run_id : Option Uuid
  node : NodeType
  retry_count : Nat
  max_retries : Nat
  isolated : Bool

structure ExecResult where
  node_id : String
  result_run_id : Option String
  status_code : Nat
  body : Option Json
  isolated : Bool

-- ===========================================================================
-- main.rs — is_lifecycle_event
-- ===========================================================================

/-- is_lifecycle_event (main.rs:290-299). -/
def is_lifecycle_event (node : NodeType) : Bool :=
  match node with
  | NodeType.mapChildComplete _ => true
  | NodeType.mapStep _ => true
  | NodeType.subFlowResume _ => true
  | NodeType.delayResume _ => true
  | NodeType.webhookResume _ => true
  | _ => false

-- ===========================================================================
-- events.rs
-- ===========================================================================

/-- A row of run_events as far as the idempotency query reads it:
`event_type` is the stored string, `retry_count` is nullable. -/
structure RunEvent where
  ev_run_id : Uuid
  ev_node_id : String
  event_type : String
  ev_retry_count : Option Nat
deriving DecidableEq

/-- has_node_completed (events.rs:75-98): does a terminal event
(NODE_COMPLETED / NODE_FAILED / NODE_CANCELLED) exist for the key
(run_id, node_id, retry_count)?  A NULL retry_count never matches. -/
def has_node_completed (log : List RunEvent) (rid : Uuid) (node_id : String)
    (retry_count : Nat) : Bool :=
  log.any (fun e =>
    e.ev_run_id == rid && e.ev_node_id == node_id &&
    e.ev_retry_count == some retry_count &&
    (e.event_type == "NODE_COMPLETED" || e.event_type == "NODE_FAILED" ||
     e.event_type == "NODE_CANCELLED"))

/-- EventType (events.rs). -/
inductive EvType where
  | NodeStarted | NodeCompleted | NodeFailed | NodeCancelled
  | NodeRetryScheduled | NodeSuspended | NodeResumed
deriving DecidableEq

-- ===========================================================================
-- retry.rs
-- ===========================================================================

/-- 2^64, the u64 wrap modulus. -/
def U64 : Nat := 2 ^ 64

/-- calculate_backoff (retry.rs:15-19): `2u64.pow(attempt) * 1000 +
jitter` in u64 (release-mode wrapping) arithmetic, with the jitter drawn
uniformly from 0..=500. -/
def calculate_backoff (attempt : Nat) (jitter : Nat) : Nat :=
  let base_ms := 2 ^ attempt % U64 * 1000 % U64
  (base_ms + jitter) % U64

/-- is_retryable_error (retry.rs:30-32). -/
def is_retryable_error (status_code : Nat) : Bool :=
  status_code == 408 || status_code == 429 || status_code == 500 ||
  status_code == 502 || status_code == 503 || status_code == 504


-- ===========================================================================
-- main.rs — process_job (the job lifecycle state machine)
-- ===========================================================================

/-- The environment a single process_job call observes: the shared
cancellation token's state, the run-status query result, the run_events
log read by the idempotency query (with a flag for that query failing
transiently), and the value execute_node would return.  `Except Unit`
models a sqlx query result whose error content is never inspected. -/
structure ProcEnv where
  tokenCancelled : Bool
  runStatusQuery : Except Unit (Option String)
  eventLog : List RunEvent
  idemQueryFails : Bool
  execOutcome : Nat × Option Json × Bool

/-- The externally visible effects of one process_job call: whether the
message was ACKed, whether execute_node ran, the run_events appended (in
order), the receipt status codes published to the results stream, the
retry re-enqueue (a delayed copy of the job), the orchestrator
notification (`some success`), and whether the run's token was removed
from the registry. -/
structure ProcessResult where
  acked : Bool
  executed : Bool
  events : List EvType
  receipts : List Nat
  retryScheduled : Bool
  requeued : Option WorkerJob
  notified : Option Bool
  tokenRemoved : Bool

/-- The transient-DB-error test (main.rs:576-581): status 500 and the
body's error string contains "pool timed out" or "Database error". -/
def is_transient_db_error (status : Nat) (body : Option Json) : Bool :=
  status == 500 &&
  (match body with
   | some b =>
     match b.get "error" with
     | some (Json.str s) =>
       containsSub s "pool timed out" || containsSub s "Database error"
     | _ => false
   | none => false)

/-- Run-status short-circuit (main.rs:348): skip when the run is
cancelled or failed. -/
def statusSkips : Option String → Bool
  | some s => s == "cancelled" || s == "failed"
  | none => false

/-- handle_retry (main.rs:928-988): log NODE_RETRY_SCHEDULED (when a run
id exists) and spawn a delayed re-enqueue of the job with retry_count
bumped to the next attempt.  The backoff sleep itself is the
calculate_backoff value; only the requeued job is observable here. -/
def retryRequeuedJob (job : WorkerJob) : WorkerJob :=
  { id := job.id, run_id := job.run_id, node := job.node,
    retry_count := job.retry_count + 1, max_retries := job.max_retries,
    isolated := job.isolated }

/-- Steps 4-8 of process_job (main.rs:392-623): log STARTED, execute,
classify, act, ACK.  `rid` is the parsed run id (None for isolated
jobs). -/
def afterChecks (job : WorkerJob) (env : ProcEnv) (rid : Option Uuid) :
    ProcessResult :=
  let isLifecycle := is_lifecycle_event job.node
  let started : List EvType := if rid.isSome then [EvType.NodeStarted] else []
  let (status, body, wasCancelled) := env.execOutcome
  let isSuccess : Bool := decide (200 ≤ status) && decide (status < 300)
  let isSuspended : Bool := !isLifecycle && status == 202 &&
    (match body with
     | some b => (b.get "suspended").isSome || (b.get "batch_id").isSome
     | none => false)
  if isLifecycle then
    -- lifecycle branch (main.rs:433-478): publish progress receipt, then
    -- 500 → do not ACK; 200 → notify orchestrator and ACK; else just ACK
    if status == 500 then
      { acked := false, executed := true, events := started,
        receipts := [status], retryScheduled := false, requeued := none,
        notified := none, tokenRemoved := false }
    else if status == 200 then
      { acked := true, executed := true, events := started,
        receipts := [status], retryScheduled := false, requeued := none,
        notified := if rid.isSome then some true else none,
        tokenRemoved := false }
    else
      { acked := true, executed := true, events := started,
        receipts := [status], retryScheduled := false, requeued := none,
        notified := none, tokenRemoved := false }
  else if wasCancelled then
    -- cancelled branch (main.rs:481-526)
    { acked := true, executed := true,
      events := started ++ (if rid.isSome then [EvType.NodeCancelled] else []),
      receipts := [499], retryScheduled := false, requeued := none,
      notified := none, tokenRemoved := rid.isSome }
  else if isSuspended then
    -- suspended branch (main.rs:529-572)
    { acked := true, executed := true,
      events := started ++ (if rid.isSome then [EvType.NodeSuspended] else []),
      receipts := [202], retryScheduled := false, requeued := none,
      notified := none, tokenRemoved := false }
  else if is_transient_db_error status body then
    -- transient DB error (main.rs:583-590): exit without ACK
    { acked := false, executed := true, events := started, receipts := [],
      retryScheduled := false, requeued := none, notified := none,
      tokenRemoved := false }
  else if !isSuccess && is_retryable_error status &&
      decide (job.retry_count < job.max_retries) then
    -- retry branch (main.rs:593-604)
    { acked := true, executed := true,
      events := started ++
        (if rid.isSome then [EvType.NodeRetryScheduled] else []),
      receipts := [], retryScheduled := true,
      requeued := some (retryRequeuedJob job), notified := none,
      tokenRemoved := false }
  else
    -- final result (main.rs:607-619, handle_final_result 990-1063)
    { acked := true, executed := true,
      events := started ++
        (if rid.isSome then
          [if isSuccess then EvType.NodeCompleted else EvType.NodeFailed]
         else []),
      receipts := [status], retryScheduled := false, requeued := none,
      notified := if !job.isolated && rid.isSome then some isSuccess else none,
      tokenRemoved := false }

/-- process_job (main.rs:301-623), decision order per job: token
short-circuit, run-status check, idempotency check (execution events
only), then execute and classify (afterChecks). -/
def process_job (job : WorkerJob) (env : ProcEnv) : ProcessResult :=
  let isLifecycle := is_lifecycle_event job.node
  let ackOnly : ProcessResult :=
    { acked := true, executed := false, events := [], receipts := [],
      retryScheduled := false, requeued := none, notified := none,
      tokenRemoved := false }
  let noAckExit : ProcessResult :=
    { acked := false, executed := false, events := [], receipts := [],
      retryScheduled := false, requeued := none, notified := none,
      tokenRemoved := false }
  match job.run_id with
  | some rid =>
    if env.tokenCancelled then ackOnly
    else
      match env.runStatusQuery with
      | Except.error _ => noAckExit
      | Except.ok st =>
        if statusSkips st then ackOnly
        else if isLifecycle then afterChecks job env (some rid)
        else if env.idemQueryFails then noAckExit
        else if has_node_completed env.eventLog rid job.id job.retry_count then
          ackOnly
        else afterChecks job env (some rid)
  | none => afterChecks job env none

-- ===========================================================================
-- nodes/subflow.rs
-- ===========================================================================

/-- SubFlowError (subflow.rs:13-20). -/
inductive SubFlowError where
  | depthLimitExceeded (current limit : Nat)
  | workflowNotFound (workflow_id : Int)
  | noPublishedVersion (workflow_id : Int)
  | versionNotFound (version_id : String)
  | databaseError (msg : String)
  | childFailed (error : String)
deriving DecidableEq

/-- Display for SubFlowError (subflow.rs:22-41). -/
def subFlowErrorMessage : SubFlowError → String
  | SubFlowError.depthLimitExceeded current limit =>
    "Sub-flow depth limit exceeded: " ++ toString current ++ " > " ++
      toString limit
  | SubFlowError.workflowNotFound wid => "Workflow not found: " ++ toString wid
  | SubFlowError.noPublishedVersion wid =>
    "No published version for workflow: " ++ toString wid
  | SubFlowError.versionNotFound vid => "Version not found: " ++ vid
  | SubFlowError.databaseError msg => "Database error: " ++ msg
  | SubFlowError.childFailed err => "Child sub-flow failed: " ++ err

/-- Display for MapError (map.rs:22-33); only the depth-limit message is
needed by the claims. -/
def mapDepthLimitMessage (current limit : Nat) : String :=
  "Map depth limit exceeded: " ++ toString current ++ " >= " ++ toString limit

structure SpawnResult where
  child_run_id : Uuid
  child_workflow_name : String
deriving DecidableEq

/-- The database rows spawn_child_run would read, and the fresh child
run id it would allocate.  (Transport-level DatabaseError outcomes of
the individual queries are not modelled; no claim involves them.) -/
structure SpawnEnv where
  workflowRow : Option (Int × String × Option Uuid)
  pinnedVersionExists : Bool
  versionGraph : Option Json
  freshChildRunId : Uuid

/-- The writes spawn_child_run performs, in order. -/
inductive SpawnWrite where
  | insertChildRun (id : Uuid) (depth : Nat)
  | insertRunCreatedEvent (id : Uuid)
  | insertSuspension (parent_run_id : Uuid) (parent_node_id : String)
deriving DecidableEq

/-- spawn_child_run (subflow.rs:51-207): depth check first, then
workflow lookup, version resolution, graph fetch, and only then the
three inserts (child run, RUN_CREATED event, subflow suspension). -/
def spawn_child_run (env : SpawnEnv) (data : SubFlowNodeData)
    (parent_run_id : Uuid) (parent_node_id : String) (parent_depth : Nat) :
    Except SubFlowError SpawnResult × List SpawnWrite :=
  let new_depth := parent_depth + 1
  if new_depth > data.depth_limit then
    (Except.error (SubFlowError.depthLimitExceeded new_depth data.depth_limit),
     [])
  else
    match env.workflowRow with
    | none => (Except.error (SubFlowError.workflowNotFound data.workflow_id), [])
    | some (_, workflow_name, active_version_id) =>
      let versionOk : Except SubFlowError Unit :=
        match data.version_id with
        | some pinned =>
          if env.pinnedVersionExists then Except.ok ()
          else Except.error (SubFlowError.versionNotFound pinned)
        | none =>
          match active_version_id with
          | some _ => Except.ok ()
          | none =>
            Except.error (SubFlowError.noPublishedVersion data.workflow_id)
      match versionOk with
      | Except.error e => (Except.error e, [])
      | Except.ok _ =>
        match env.versionGraph with
        | none =>
          (Except.error (SubFlowError.versionNotFound "missing graph"), [])
        | some _ =>
          (Except.ok
            { child_run_id := env.freshChildRunId,
              child_workflow_name := workflow_name },
           [SpawnWrite.insertChildRun env.freshChildRunId new_depth,
            SpawnWrite.insertRunCreatedEvent env.freshChildRunId,
            SpawnWrite.insertSuspension parent_run_id parent_node_id])

/-- The Err branch of execute_node for SubFlow (main.rs:745-755): a
spawn failure becomes status 500 with the error's display string in the
body. -/
def subFlowSpawnErrResult (e : SubFlowError) : Nat × Option Json × Bool :=
  (500, some (Json.obj [("error", Json.str (subFlowErrorMessage e))]), false)

/-- handle_resume (subflow.rs:211-242): map the child outcome to the
parent node's (status, body). -/
def handle_resume (data : SubFlowResumeData) (fail_on_error : Bool) :
    Nat × Json :=
  if data.success then
    (200, Json.obj [("child_run_id", Json.str data.child_run_id),
                    ("output", match data.output with
                               | some o => o
                               | none => Json.null)])
  else if fail_on_error then
    (500, Json.obj [("error", Json.str (match data.error with
                                        | some e => e
                                        | none => "Sub-flow failed")),
                    ("child_run_id", Json.str data.child_run_id)])
  else
    (299, Json.obj [("error", Json.str (match data.error with
                                        | some e => e
                                        | none => "Sub-flow failed")),
                    ("child_run_id", Json.str data.child_run_id),
                    ("route_to", Json.str "error")])

/-- The SubFlowResume arm of execute_node (main.rs:768-774): the worker
calls handle_resume with fail_on_error hard-coded to false ("For now,
assume fail_on_error = false"). -/
def subFlowResumeExec (data : SubFlowResumeData) : Nat × Option Json × Bool :=
  let r := handle_resume data false
  (r.1, some r.2, false)

-- ===========================================================================
-- nodes/delay.rs
-- ===========================================================================

/-- Observable outcome of nodes/delay.rs execute: the returned (status,
body), the number of milliseconds the inline sleep awaits, and the
delayed-jobs sorted-set insertion (score, member) if any. -/
structure DelayOutcome where
  status_code : Nat
  body : Option Json
  sleptMs : Nat
  zaddEntry : Option (Nat × Json)

/-- The DELAY_RESUME job JSON that a long delay inserts into the
swiftgrid_delayed sorted set (delay.rs:49-55). -/
def delayResumeJobJson (job_id : String) (run_id : Option String)
    (delay_ms : Nat) : Json :=
  Json.obj
    [("id", Json.str job_id),
     ("run_id", match run_id with
                | some r => Json.str r
                | none => Json.null),
     ("node", Json.obj
       [("type", Json.str "DELAY_RESUME"),
        ("data", Json.obj
          [("original_delay_ms", Json.num (Int.ofNat delay_ms))])]),
     ("retry_count", Json.num 0),
     ("max_retries", Json.num 0)]

/-- nodes/delay.rs execute (delay.rs:20-82).  Short delays
(duration_ms ≤ 60000) sleep inline with tokio::time::sleep — the
function takes NO cancellation token, so the sleep always lasts the full
duration — and return 200.  Long delays compute resume_at = now +
duration_ms, zadd the DELAY_RESUME job with resume_at as its score, and
return 202 with scheduled=true.  `now` is the wall clock in ms. -/
def delay_execute (data : DelayNodeData) (job_id : String)
    (run_id : Option String) (now : Nat) : DelayOutcome :=
  let delay_ms := data.duration_ms
  if delay_ms ≤ 60000 then
    { status_code := 200,
      body := some (Json.obj
        [("delayed_ms", Json.num (Int.ofNat delay_ms)),
         ("message", Json.str ("Delayed for " ++ toString delay_ms ++ "ms"))]),
      sleptMs := delay_ms,
      zaddEntry := none }
  else
    let resume_at := now + delay_ms
    { status_code := 202,
      body := some (Json.obj
        [("scheduled", Json.bool true),
         ("resume_at", Json.num (Int.ofNat resume_at)),
         ("delayed_ms", Json.num (Int.ofNat delay_ms))]),
      sleptMs := 0,
      zaddEntry := some (resume_at, delayResumeJobJson job_id run_id delay_ms) }

-- ===========================================================================
-- cancellation.rs — CancellationRegistry
-- ===========================================================================

/-- The registry state: run_id → token, a token being its cancelled
flag (tokio CancellationToken clones share state, so the flag in the
map IS the shared token state). -/
def Registry := List (Uuid × Bool)

/-- Token lookup inside the registry's map. -/
def Registry.lookup (r : Registry) (rid : Uuid) : Option Bool :=
  List.lookup rid r

/-- get_or_create (cancellation.rs:28-44): return the existing shared
token, or insert and return a fresh (untriggered) one. -/
def Registry.get_or_create (r : Registry) (rid : Uuid) : Bool × Registry :=
  match r.lookup rid with
  | some token => (token, r)
  | none => (false, (rid, false) :: r)

/-- cancel (cancellation.rs:47-52): trigger the token if one exists;
otherwise do nothing. -/
def Registry.cancel (r : Registry) (rid : Uuid) : Registry :=
  match r.lookup rid with
  | some _ => r.map (fun p => if p.1 == rid then (p.1, true) else p)
  | none => r

/-- remove (cancellation.rs:55-57). -/
def Registry.remove (r : Registry) (rid : Uuid) : Registry :=
  r.filter (fun p => p.1 != rid)

/-- is_cancelled (cancellation.rs:60-66): the token's flag if present,
false otherwise. -/
def Registry.is_cancelled (r : Registry) (rid : Uuid) : Bool :=
  match r.lookup rid with
  | some token => token
  | none => false

-- ===========================================================================
-- nodes/map.rs — batch state, handle_child_complete, complete_batch
-- ===========================================================================

/-- MapError (map.rs:14-20). -/
inductive MapError where
  | depthLimitExceeded (current limit : Nat)
  | databaseError (msg : String)
  | executionError (msg : String)
  | cancelled (msg : String)
deriving DecidableEq

/-- A batch_results row (UNIQUE on (batch_id, item_index); rows are kept
in insertion order here, the batch id being the enclosing state's). -/
structure BatchResultRow where
  item_index : Int
  row_status : String
  output : Option Json
  error_message : Option String

/-- The batch_operations row for one batch. -/
structure BatchOp where
  total_items : Nat
  concurrency_limit : Nat
  fail_fast : Bool
  op_status : String
  current_index : Nat
  active_count : Int
  completed_count : Nat
  failed_count : Nat
  input_items : Json

/-- Database state restricted to one batch: its batch_operations row and
its batch_results rows. -/
structure BatchState where
  state_batch_id : String
  op : BatchOp
  results : List BatchResultRow

/-- One {index, error} entry of the errors array (map.rs:1006-1009). -/
def errEntry (r : BatchResultRow) : Json :=
  Json.obj [("index", Json.num r.item_index),
            ("error", Json.str (r.error_message.getD "Unknown error"))]

/-- One iteration of the aggregation loop of complete_batch
(map.rs:1001-1012): an in-range completed row sets its slot of the
output array, an in-range non-completed row appends an {index, error}
entry, an out-of-range row is skipped. -/
def aggStep (total : Nat) (acc : List Json × List Json)
    (r : BatchResultRow) : List Json × List Json :=
  if 0 ≤ r.item_index ∧ r.item_index < (total : Int) then
    if r.row_status == "completed" then
      (acc.1.set r.item_index.toNat (r.output.getD Json.null), acc.2)
    else (acc.1, acc.2 ++ [errEntry r])
  else acc

/-- The aggregation loop of complete_batch over the ordered rows. -/
def aggRows (total : Nat) :
    List BatchResultRow → List Json × List Json → List Json × List Json
  | [], acc => acc
  | r :: rs, acc => aggRows total rs (aggStep total acc r)

/-- Insert a row into a list sorted by ascending item_index. -/
def insertByIdx (r : BatchResultRow) :
    List BatchResultRow → List BatchResultRow
  | [] => [r]
  | x :: xs =>
    if r.item_index ≤ x.item_index then r :: x :: xs
    else x :: insertByIdx r xs

/-- ORDER BY item_index (map.rs:971-982), as an insertion sort. -/
def sortByIdx : List BatchResultRow → List BatchResultRow
  | [] => []
  | x :: xs => insertByIdx x (sortByIdx xs)

/-- complete_batch (map.rs:953-1097): mark the batch terminal
("failed" when failed_early, else "completed"), read all results ordered
by item_index, build the positional output array (length total_items,
missing or non-completed indices stay null) and the {index, error}
array, and return 200 / route_to "success" — or 500 / route_to "error"
when failed_early or all items failed.  It also logs NODE_COMPLETED
(or NODE_FAILED when failed_early) on the parent node; clock-derived
stats fields are embedded as null. -/
def complete_batch (st : BatchState) (run_id : Uuid) (node_id : String)
    (failed_early : Bool) : BatchState × ExecResult :=
  let newStatus := if failed_early then "failed" else "completed"
  let st' : BatchState :=
    { st with op := { st.op with op_status := newStatus } }
  let total := st'.op.total_items
  let rows := sortByIdx st'.results
  let agg := aggRows total rows (List.replicate total Json.null, [])
  let failedAll : Bool := failed_early || st'.op.failed_count == total
  let status_code := if failedAll then 500 else 200
  (st',
   { node_id := node_id,
     result_run_id := some run_id,
     status_code := status_code,
     body := some (Json.obj
       [("results", Json.arr agg.1),
        ("errors", Json.arr agg.2),
        ("stats", Json.obj
          [("total", Json.num (total : Int)),
           ("completed", Json.num (st'.op.completed_count : Int)),
           ("failed", Json.num (st'.op.failed_count : Int)),
           ("duration_ms", Json.null),
           ("duration_secs", Json.null),
           ("items_per_sec", Json.null),
           ("avg_latency_ms", Json.null),
           ("concurrency_used", Json.null),
           ("suggested_concurrency", Json.null)]),
        ("route_to", Json.str (if failedAll then "error" else "success"))]),
     isolated := false })

/-- The 202 progress body of handle_child_complete's duplicate branch
(map.rs:300-319); the float progress ratio is embedded as null. -/
def duplicateProgressResult (st : BatchState) (run_id : Uuid)
    (node_id : String) : ExecResult :=
  { node_id := node_id,
    result_run_id := some run_id,
    status_code := 202,
    body := some (Json.obj
      [("batch_id", Json.str st.state_batch_id),
       ("status", Json.str st.op.op_status),
       ("completed", Json.num (st.op.completed_count : Int)),
       ("failed", Json.num (st.op.failed_count : Int)),
       ("total", Json.num (st.op.total_items : Int)),
       ("progress", Json.null),
       ("duplicate", Json.bool true)]),
    isolated := true }

/-- The 202 progress body of handle_child_complete's normal return
(map.rs:418-436), built from the post-update counters. -/
def progressResult (st : BatchState) (run_id : Uuid) (node_id : String) :
    ExecResult :=
  { node_id := node_id,
    result_run_id := some run_id,
    status_code := 202,
    body := some (Json.obj
      [("batch_id", Json.str st.state_batch_id),
       ("status", Json.str "running"),
       ("completed", Json.num (st.op.completed_count : Int)),
       ("failed", Json.num (st.op.failed_count : Int)),
       ("total", Json.num (st.op.total_items : Int)),
       ("progress", Json.null)]),
    isolated := true }

/-- handle_child_complete (map.rs:235-437).  `runCancelledNow` is the
value the sampled is_run_cancelled query would return (it is only
consulted when item_index % 10 == 0).  A batch id that does not match
the state models the fetch-one failure of a missing batch row.  The
counter update, fail-fast check, completion check, spawn/cancel branches
and the returned receipts follow the source; the spawned children
themselves (child runs and queue pushes) are outside this state. -/
def handle_child_complete (st : BatchState) (run_id : Uuid)
    (node_id : String) (data : MapChildCompleteData)
    (runCancelledNow : Bool) : BatchState × Except MapError ExecResult :=
  if data.batch_id != st.state_batch_id then
    (st, Except.error (MapError.databaseError "batch not found"))
  else if data.item_index == -1 then
    let fin := complete_batch st run_id node_id true
    (fin.1, Except.ok fin.2)
  else
    let run_cancelled :=
      if data.item_index % 10 == 0 then runCancelledNow else false
    if st.results.any (fun r => r.item_index == data.item_index) then
      -- ON CONFLICT (batch_id, item_index) DO NOTHING fired: duplicate
      let total_finished := st.op.completed_count + st.op.failed_count
      if st.op.op_status == "running" && total_finished ≥ st.op.total_items
      then
        let fin := complete_batch st run_id node_id false
        (fin.1, Except.ok fin.2)
      else
        (st, Except.ok (duplicateProgressResult st run_id node_id))
    else
      let newRow : BatchResultRow :=
        { item_index := data.item_index,
          row_status := if data.success then "completed" else "failed",
          output := data.output,
          error_message := data.error }
      let op1 : BatchOp :=
        if data.success then
          { st.op with completed_count := st.op.completed_count + 1,
                       active_count := st.op.active_count - 1 }
        else
          { st.op with failed_count := st.op.failed_count + 1,
                       active_count := st.op.active_count - 1 }
      let st2 : BatchState :=
        { st with op := op1, results := st.results ++ [newRow] }
      let total_finished := op1.completed_count + op1.failed_count
      if op1.fail_fast && decide (0 < op1.failed_count) then
        let fin := complete_batch st2 run_id node_id true
        (fin.1, Except.ok fin.2)
      else if total_finished ≥ op1.total_items then
        let fin := complete_batch st2 run_id node_id false
        (fin.1, Except.ok fin.2)
      else if !run_cancelled &&
          decide (op1.active_count < (op1.concurrency_limit : Int)) &&
          decide (op1.current_index < op1.total_items) then
        match op1.input_items with
        | Json.arr _ =>
          let slots := ((op1.concurrency_limit : Int) - op1.active_count).toNat
          let items_remaining := op1.total_items - op1.current_index
          let to_spawn := min slots items_remaining
          if 0 < to_spawn then
            let st3 : BatchState :=
              { st2 with op :=
                { op1 with current_index := op1.current_index + to_spawn,
                           active_count := op1.active_count + to_spawn } }
            (st3, Except.ok (progressResult st2 run_id node_id))
          else
            (st2, Except.ok (progressResult st2 run_id node_id))
        | _ =>
          (st2, Except.error (MapError.executionError "Invalid input_items"))
      else if run_cancelled then
        let st3 : BatchState :=
          { st2 with op :=
            if op1.op_status == "running" then
              { op1 with op_status := "cancelled" }
            else op1 }
        (st3, Except.ok (progressResult st2 run_id node_id))
      else
        (st2, Except.ok (progressResult st2 run_id node_id))

/-- The positional output array complete_batch builds for a batch. -/
def aggOutputs (st : BatchState) : List Json :=
  (aggRows st.op.total_items (sortByIdx st.results)
    (List.replicate st.op.total_items Json.null, [])).1

/-- The errors array complete_batch builds for a batch. -/
def aggErrors (st : BatchState) : List Json :=
  (aggRows st.op.total_items (sortByIdx st.results)
    (List.replicate st.op.total_items Json.null, [])).2

/-- C1: for a delivered job with a run id (token not already triggered),
if the run-status query fails the processor exits without ACK and
without executing the node; likewise, for an execution-event kind that
passes the status check, a failing idempotency query exits without ACK
and without executing — so the queue will redeliver. -/
theorem C1_transient_query_failures_no_ack (job : WorkerJob) (env : ProcEnv)
    (rid : Uuid) (hrid : job.run_id = some rid)
    (htok : env.tokenCancelled = false) :
    (env.runStatusQuery = Except.error () →
      (process_job job env).acked = false ∧
      (process_job job env).executed = false) ∧
    (∀ st, env.runStatusQuery = Except.ok st → statusSkips st = false →
      is_lifecycle_event job.node = false → env.idemQueryFails = true →
      (process_job job env).acked = false ∧
      (process_job job env).executed = false) := by
  constructor
  · intro hq
    simp [process_job, hrid, htok, hq]
  · intro st hq hskip hlc hidem
    simp [process_job, hrid, htok, hq, hskip, hlc, hidem]

/-- Witness for C1: a concrete HTTP job whose status query fails, and
the same job with a healthy status query but a failing idempotency
query. -/
theorem C1_witness :
    ((process_job
      { id := "n1", run_id := some "R", node := NodeType.http (),
        retry_count := 0, max_retries := 3, isolated := false }
      { tokenCancelled := false, runStatusQuery := Except.error (),
        eventLog := [], idemQueryFails := false,
        execOutcome := (200, none, false) }).acked = false ∧
     (process_job
      { id := "n1", run_id := some "R", node := NodeType.http (),
        retry_count := 0, max_retries := 3, isolated := false }
      { tokenCancelled := false, runStatusQuery := Except.error (),
        eventLog := [], idemQueryFails := false,
        execOutcome := (200, none, false) }).executed = false) ∧
    ((process_job
      { id := "n1", run_id := some "R", node := NodeType.http (),
        retry_count := 0, max_retries := 3, isolated := false }
      { tokenCancelled := false,
        runStatusQuery := Except.ok (some "running"),
        eventLog := [], idemQueryFails := true,
        execOutcome := (200, none, false) }).acked = false ∧
     (process_job
      { id := "n1", run_id := some "R", node := NodeType.http (),
        retry_count := 0, max_retries := 3, isolated := false }
      { tokenCancelled := false,
        runStatusQuery := Except.ok (some "running"),
        eventLog := [], idemQueryFails := true,
        execOutcome := (200, none, false) }).executed = false) :=
  ⟨(C1_transient_query_failures_no_ack
      { id := "n1", run_id := some "R", node := NodeType.http (),
        retry_count := 0, max_retries := 3, isolated := false }
      { tokenCancelled := false, runStatusQuery := Except.error (),
        eventLog := [], idemQueryFails := false,
        execOutcome := (200, none, false) } "R" rfl rfl).1 rfl,
   (C1_transient_query_failures_no_ack
      { id := "n1", run_id := some "R", node := NodeType.http (),
        retry_count := 0, max_retries := 3, isolated := false }
      { tokenCancelled := false,
        runStatusQuery := Except.ok (some "running"),
        eventLog := [], idemQueryFails := true,
        execOutcome := (200, none, false) } "R" rfl rfl).2
     (some "running") rfl rfl rfl rfl⟩

/-- C2: a node kind is a lifecycle event exactly when it is map-step,
map-child-complete, subflow-resume, delay-resume or webhook-resume;
lifecycle jobs never consult the idempotency query or the event log;
has_node_completed holds exactly when a terminal NODE_COMPLETED /
NODE_FAILED / NODE_CANCELLED event exists for (run, node, attempt); and
an execution-event job with a run id whose key already has a terminal
event is ACKed without executing. -/
theorem C2_lifecycle_vs_execution_events :
    (∀ n : NodeType, is_lifecycle_event n = true ↔
      ((∃ d, n = NodeType.mapStep d) ∨
       (∃ d, n = NodeType.mapChildComplete d) ∨
       (∃ d, n = NodeType.subFlowResume d) ∨
       (∃ d, n = NodeType.delayResume d) ∨
       (∃ d, n = NodeType.webhookResume d))) ∧
    (∀ (job : WorkerJob) (env : ProcEnv) (log : List RunEvent) (b : Bool),
      is_lifecycle_event job.node = true →
      process_job job { env with eventLog := log, idemQueryFails := b } =
        process_job job env) ∧
    (∀ (log : List RunEvent) (rid : Uuid) (nid : String) (rc : Nat),
      has_node_completed log rid nid rc = true ↔
      ∃ e ∈ log, e.ev_run_id = rid ∧ e.ev_node_id = nid ∧
        e.ev_retry_count = some rc ∧
        (e.event_type = "NODE_COMPLETED" ∨ e.event_type = "NODE_FAILED" ∨
         e.event_type = "NODE_CANCELLED")) ∧
    (∀ (job : WorkerJob) (env : ProcEnv) (rid : Uuid) (st : Option String),
      is_lifecycle_event job.node = false →
      job.run_id = some rid →
      env.tokenCancelled = false →
      env.runStatusQuery = Except.ok st → statusSkips st = false →
      env.idemQueryFails = false →
      has_node_completed env.eventLog rid job.id job.retry_count = true →
      (process_job job env).acked = true ∧
      (process_job job env).executed = false) := by
  refine ⟨?_, ?_, ?_, ?_⟩
  · intro n
    cases n <;> simp [is_lifecycle_event]
  · intro job env log b hlc
    cases hj : job.run_id with
    | none => simp [process_job, hj, afterChecks]
    | some rid =>
      simp only [process_job, hj, hlc]
      cases env.runStatusQuery <;> simp [afterChecks]
  · intro log rid nid rc
    simp [has_node_completed, List.any_eq_true, Bool.and_eq_true,
      Bool.or_eq_true, beq_iff_eq]
    constructor
    · rintro ⟨e, he, ⟨⟨h1, h2⟩, h3⟩, h4⟩
      exact ⟨e, he, h1, h2, h3, or_assoc.mp h4⟩
    · rintro ⟨e, he, h1, h2, h3, h4⟩
      exact ⟨e, he, ⟨⟨h1, h2⟩, h3⟩, or_assoc.mpr h4⟩
  · intro job env rid st hlc hrid htok hq hskip hidem hterm
    simp [process_job, hrid, htok, hq, hskip, hlc, hidem, hterm]

/-- Witness for C2: a duplicate delivery of an HTTP job whose
(run, node, attempt) key already has a NODE_COMPLETED event is ACKed
without executing. -/
theorem C2_witness :
    (process_job
      { id := "n1", run_id := some "R", node := NodeType.http (),
        retry_count := 0, max_retries := 3, isolated := false }
      { tokenCancelled := false,
        runStatusQuery := Except.ok (some "running"),
        eventLog := [{ ev_run_id := "R", ev_node_id := "n1",
                       event_type := "NODE_COMPLETED",
                       ev_retry_count := some 0 }],
        idemQueryFails := false,
        execOutcome := (200, none, false) }).acked = true ∧
    (process_job
      { id := "n1", run_id := some "R", node := NodeType.http (),
        retry_count := 0, max_retries := 3, isolated := false }
      { tokenCancelled := false,
        runStatusQuery := Except.ok (some "running"),
        eventLog := [{ ev_run_id := "R", ev_node_id := "n1",
                       event_type := "NODE_COMPLETED",
                       ev_retry_count := some 0 }],
        idemQueryFails := false,
        execOutcome := (200, none, false) }).executed = false :=
  C2_lifecycle_vs_execution_events.2.2.2
    { id := "n1", run_id := some "R", node := NodeType.http (),
      retry_count := 0, max_retries := 3, isolated := false }
    { tokenCancelled := false,
      runStatusQuery := Except.ok (some "running"),
      eventLog := [{ ev_run_id := "R", ev_node_id := "n1",
                     event_type := "NODE_COMPLETED",
                     ev_retry_count := some 0 }],
      idemQueryFails := false,
      execOutcome := (200, none, false) }
    "R" (some "running") rfl rfl rfl rfl rfl rfl (by decide)

/-- C3: re-delivering a map-child-complete for a (batch, item_index)
pair (item_index ≥ 0) whose batch_results row already exists hits the
unique constraint (ON CONFLICT DO NOTHING, zero rows affected), leaves
completed_count, failed_count and active_count unchanged, and returns a
202 progress receipt marked duplicate — unless all items are already
accounted for while the batch status is still running, in which case it
finalizes via complete_batch. -/
theorem C3_duplicate_child_complete (st : BatchState) (run_id nid : String)
    (data : MapChildCompleteData) (cOr : Bool)
    (hbid : data.batch_id = st.state_batch_id)
    (hidx : 0 ≤ data.item_index)
    (hdup : ∃ r ∈ st.results, r.item_index = data.item_index) :
    ((handle_child_complete st run_id nid data cOr).1.op.completed_count =
        st.op.completed_count ∧
     (handle_child_complete st run_id nid data cOr).1.op.failed_count =
        st.op.failed_count ∧
     (handle_child_complete st run_id nid data cOr).1.op.active_count =
        st.op.active_count) ∧
    (st.op.op_status = "running" ∧
        st.op.total_items ≤ st.op.completed_count + st.op.failed_count →
      handle_child_complete st run_id nid data cOr =
        ((complete_batch st run_id nid false).1,
         Except.ok (complete_batch st run_id nid false).2)) ∧
    (¬ (st.op.op_status = "running" ∧
        st.op.total_items ≤ st.op.completed_count + st.op.failed_count) →
      handle_child_complete st run_id nid data cOr =
        (st, Except.ok (duplicateProgressResult st run_id nid))) ∧
    (duplicateProgressResult st run_id nid).status_code = 202 ∧
    ((duplicateProgressResult st run_id nid).body.bind
        (fun b => b.get "duplicate")) = some (Json.bool true) := by
  have hne : (data.item_index == (-1 : Int)) = false := by
    simp only [beq_eq_false_iff_ne, ne_eq]
    intro h
    rw [h] at hidx
    omega
  have hbid2 : (data.batch_id != st.state_batch_id) = false := by
    simp [hbid]
  have hany :
      st.results.any (fun r => r.item_index == data.item_index) = true := by
    rcases hdup with ⟨r, hr, he⟩
    simp only [List.any_eq_true]
    exact ⟨r, hr, by simp [he]⟩
  have hred : handle_child_complete st run_id nid data cOr =
      (if st.op.op_status == "running" &&
          st.op.completed_count + st.op.failed_count ≥ st.op.total_items then
        ((complete_batch st run_id nid false).1,
         Except.ok (complete_batch st run_id nid false).2)
      else (st, Except.ok (duplicateProgressResult st run_id nid))) := by
    simp only [handle_child_complete, hbid2, hne, hany, Bool.false_eq_true,
      if_false, if_true]
  by_cases hc : st.op.op_status = "running" ∧
      st.op.total_items ≤ st.op.completed_count + st.op.failed_count
  · have hcb : (st.op.op_status == "running" &&
        st.op.completed_count + st.op.failed_count ≥ st.op.total_items) =
          true := by
      simp [hc.1, hc.2, ge_iff_le]
    rw [hcb] at hred
    simp only [eq_self_iff_true, if_true] at hred
    refine ⟨?_, fun _ => hred, fun hn => absurd hc hn, rfl, rfl⟩
    rw [hred]
    exact ⟨rfl, rfl, rfl⟩
  · have hcb : (st.op.op_status == "running" &&
        st.op.completed_count + st.op.failed_count ≥ st.op.total_items) =
          false := by
      rcases Decidable.not_and_iff_or_not.mp hc with h | h
      · simp [h]
      · simp [ge_iff_le, h]
    rw [hcb] at hred
    simp only [Bool.false_eq_true, if_false] at hred
    refine ⟨?_, fun hyes => absurd hyes hc, fun _ => hred, rfl, rfl⟩
    rw [hred]
    exact ⟨rfl, rfl, rfl⟩

/-- Witness for C3: a second delivery for item 0 of a running batch of
3 with one item accounted for leaves completed_count at 1. -/
theorem C3_witness :
    (handle_child_complete
      { state_batch_id := "B",
        op := { total_items := 3, concurrency_limit := 2,
                fail_fast := false, op_status := "running",
                current_index := 2, active_count := 1,
                completed_count := 1, failed_count := 0,
                input_items := Json.arr [Json.num 1, Json.num 2, Json.num 3] },
        results := [{ item_index := 0, row_status := "completed",
                      output := some (Json.num 1),
                      error_message := none }] }
      "R" "n1"
      { batch_id := "B", item_index := 0, child_run_id := "c0",
        success := true, output := some (Json.num 1), error := none }
      false).1.op.completed_count = 1 :=
  (C3_duplicate_child_complete
    { state_batch_id := "B",
      op := { total_items := 3, concurrency_limit := 2,
              fail_fast := false, op_status := "running",
              current_index := 2, active_count := 1,
              completed_count := 1, failed_count := 0,
              input_items := Json.arr [Json.num 1, Json.num 2, Json.num 3] },
      results := [{ item_index := 0, row_status := "completed",
                    output := some (Json.num 1),
                    error_message := none }] }
    "R" "n1"
    { batch_id := "B", item_index := 0, child_run_id := "c0",
      success := true, output := some (Json.num 1), error := none }
    false rfl (by decide)
    ⟨{ item_index := 0, row_status := "completed",
       output := some (Json.num 1), error_message := none },
     by simp, rfl⟩).1.1

-- Helper lemmas for the complete_batch aggregation (claim C4)

theorem aggStep_fst_length (total : Nat) (acc : List Json × List Json)
    (r : BatchResultRow) :
    (aggStep total acc r).1.length = acc.1.length := by
  unfold aggStep
  split
  · split
    · simp [List.length_set]
    · rfl
  · rfl

theorem aggRows_fst_length (total : Nat) (rows : List BatchResultRow)
    (acc : List Json × List Json) :
    (aggRows total rows acc).1.length = acc.1.length := by
  induction rows generalizing acc with
  | nil => rfl
  | cons r rs ih =>
    rw [aggRows, ih, aggStep_fst_length]

theorem aggRows_snd_eq (total : Nat) (rows : List BatchResultRow)
    (acc : List Json × List Json) :
    (aggRows total rows acc).2 = acc.2 ++
      (rows.filter (fun r =>
        decide (0 ≤ r.item_index ∧ r.item_index < (total : Int)) &&
        !(r.row_status == "completed"))).map errEntry := by
  induction rows generalizing acc with
  | nil => simp [aggRows]
  | cons r rs ih =>
    rw [aggRows, ih]
    by_cases h : 0 ≤ r.item_index ∧ r.item_index < (total : Int)
    · by_cases hc : (r.row_status == "completed") = true
      · simp [aggStep, h, hc, List.filter_cons]
      · rw [Bool.not_eq_true] at hc
        simp [aggStep, h, hc, List.filter_cons]
    · simp [aggStep, h, List.filter_cons]

theorem aggStep_fst_get_ne (total : Nat) (acc : List Json × List Json)
    (r : BatchResultRow) (i : Nat)
    (h : r.row_status = "completed" → 0 ≤ r.item_index →
      r.item_index < (total : Int) → r.item_index.toNat ≠ i) :
    (aggStep total acc r).1[i]? = acc.1[i]? := by
  unfold aggStep
  by_cases hin : 0 ≤ r.item_index ∧ r.item_index < (total : Int)
  · by_cases hc : (r.row_status == "completed") = true
    · have hne : r.item_index.toNat ≠ i :=
        h (by simpa using hc) hin.1 hin.2
      simp [hin, hc, List.getElem?_set_ne hne]
    · simp [hin, hc]
  · simp [hin]

theorem aggRows_fst_untouched (total : Nat) (rows : List BatchResultRow)
    (acc : List Json × List Json) (i : Nat)
    (h : ∀ r ∈ rows, r.row_status = "completed" → 0 ≤ r.item_index →
      r.item_index < (total : Int) → r.item_index.toNat ≠ i) :
    (aggRows total rows acc).1[i]? = acc.1[i]? := by
  induction rows generalizing acc with
  | nil => rfl
  | cons r rs ih =>
    rw [aggRows,
      ih _ (fun r' hr' => h r' (List.mem_cons_of_mem _ hr')),
      aggStep_fst_get_ne _ _ _ _ (h r (List.mem_cons_self _ _))]

theorem aggRows_fst_mem (total : Nat) (rows : List BatchResultRow)
    (acc : List Json × List Json) (r : BatchResultRow)
    (hnd : (rows.map (fun x => x.item_index)).Nodup)
    (hr : r ∈ rows) (hc : r.row_status = "completed")
    (h0 : 0 ≤ r.item_index) (hlt : r.item_index < (total : Int))
    (hlen : r.item_index.toNat < acc.1.length) :
    (aggRows total rows acc).1[r.item_index.toNat]? =
      some (r.output.getD Json.null) := by
  induction rows generalizing acc with
  | nil => cases hr
  | cons r0 rs ih =>
    rw [List.map_cons] at hnd
    have hnd' := List.nodup_cons.mp hnd
    rcases List.mem_cons.mp hr with heq | hmem
    · subst heq
      have hunt : ∀ r' ∈ rs, r'.row_status = "completed" →
          0 ≤ r'.item_index → r'.item_index < (total : Int) →
          r'.item_index.toNat ≠ r.item_index.toNat := by
        intro r' hr' _ h0' _ htn
        have hix : r'.item_index = r.item_index := by omega
        exact hnd'.1 (hix ▸ List.mem_map_of_mem _ hr')
      rw [aggRows, aggRows_fst_untouched _ _ _ _ hunt]
      have hin : 0 ≤ r.item_index ∧ r.item_index < (total : Int) := ⟨h0, hlt⟩
      simp [aggStep, hin, hc, List.getElem?_set_self hlen]
    · have hne0 : r0.row_status = "completed" → 0 ≤ r0.item_index →
          r0.item_index < (total : Int) →
          r0.item_index.toNat ≠ r.item_index.toNat := by
        intro _ h00 _ htn
        have hix : r0.item_index = r.item_index := by omega
        exact hnd'.1 (hix ▸ List.mem_map_of_mem _ hmem)
      rw [aggRows]
      exact ih (aggStep total acc r0) hnd'.2 hmem
        (by rw [aggStep_fst_length]; exact hlen)

theorem insertByIdx_perm (r : BatchResultRow) (xs : List BatchResultRow) :
    (insertByIdx r xs).Perm (r :: xs) := by
  induction xs with
  | nil => simp [insertByIdx]
  | cons x xs ih =>
    rw [insertByIdx]
    split
    · exact List.Perm.refl _
    · exact (ih.cons x).trans (List.Perm.swap r x xs)

theorem sortByIdx_perm (xs : List BatchResultRow) :
    (sortByIdx xs).Perm xs := by
  induction xs with
  | nil => exact List.Perm.refl _
  | cons x xs ih =>
    rw [sortByIdx]
    exact (insertByIdx_perm x (sortByIdx xs)).trans (ih.cons x)

/-- C4: complete_batch builds a results array of length total_items
indexed positionally by item-index — each in-range completed row's slot
holds its output, every other index stays null — and an errors array of
{index, error} entries for the in-range non-completed rows; the receipt
is status 200 with route_to "success", except status 500 with route_to
"error" when the batch failed early (fail-fast / timeout marker) or
when all items failed.  Indices are unique by the (batch, item_index)
unique constraint. -/
theorem C4_complete_batch_aggregation (st : BatchState) (run_id nid : String)
    (failed_early : Bool)
    (hnd : (st.results.map (fun r => r.item_index)).Nodup) :
    ((complete_batch st run_id nid failed_early).2.status_code =
      if failed_early = true ∨ st.op.failed_count = st.op.total_items then 500
      else 200) ∧
    ((complete_batch st run_id nid failed_early).2.body.bind
        (fun b => b.get "route_to") =
      some (Json.str
        (if failed_early = true ∨ st.op.failed_count = st.op.total_items then
          "error"
         else "success"))) ∧
    ((complete_batch st run_id nid failed_early).2.body.bind
        (fun b => b.get "results") =
      some (Json.arr (aggOutputs st))) ∧
    (aggOutputs st).length = st.op.total_items ∧
    (∀ r ∈ st.results, r.row_status = "completed" → 0 ≤ r.item_index →
      r.item_index < (st.op.total_items : Int) →
      (aggOutputs st)[r.item_index.toNat]? = some (r.output.getD Json.null)) ∧
    (∀ i < st.op.total_items,
      (∀ r ∈ st.results, r.row_status = "completed" → 0 ≤ r.item_index →
        r.item_index < (st.op.total_items : Int) → r.item_index.toNat ≠ i) →
      (aggOutputs st)[i]? = some Json.null) ∧
    ((complete_batch st run_id nid failed_early).2.body.bind
        (fun b => b.get "errors") =
      some (Json.arr (aggErrors st))) ∧
    aggErrors st =
      ((sortByIdx st.results).filter (fun r =>
        decide (0 ≤ r.item_index ∧
          r.item_index < (st.op.total_items : Int)) &&
        !(r.row_status == "completed"))).map errEntry := by
  have hperm := sortByIdx_perm st.results
  have hfb : (failed_early || st.op.failed_count == st.op.total_items) = true ↔
      (failed_early = true ∨ st.op.failed_count = st.op.total_items) := by
    simp
  refine ⟨?_, ?_, ?_, ?_, ?_, ?_, ?_, ?_⟩
  · by_cases hP : failed_early = true ∨ st.op.failed_count = st.op.total_items
    · have hb := hfb.mpr hP
      simp [complete_batch, hb, hP]
    · have hb : (failed_early || st.op.failed_count == st.op.total_items) =
          false := by
        rw [Bool.eq_false_iff]
        intro h
        exact hP (hfb.mp h)
      simp [complete_batch, hb, hP]
  · by_cases hP : failed_early = true ∨ st.op.failed_count = st.op.total_items
    · have hb := hfb.mpr hP
      simp [complete_batch, Json.get, List.lookup, hb, hP]
    · have hb : (failed_early || st.op.failed_count == st.op.total_items) =
          false := by
        rw [Bool.eq_false_iff]
        intro h
        exact hP (hfb.mp h)
      simp [complete_batch, Json.get, List.lookup, hb, hP]
  · rfl
  · rw [aggOutputs, aggRows_fst_length]
    exact List.length_replicate ..
  · intro r hr hc h0 hlt
    have hlen : r.item_index.toNat <
        (List.replicate st.op.total_items Json.null).length := by
      rw [List.length_replicate]
      omega
    exact aggRows_fst_mem st.op.total_items (sortByIdx st.results) _ r
      (((hperm.map (fun x => x.item_index)).nodup_iff).mpr hnd)
      (hperm.mem_iff.mpr hr) hc h0 hlt hlen
  · intro i hi h
    rw [aggOutputs, aggRows_fst_untouched _ _ _ _
      (fun r hr => h r (hperm.mem_iff.mp hr))]
    exact List.getElem?_replicate_of_lt hi
  · rfl
  · rw [aggErrors, aggRows_snd_eq]
    simp

/-- Witness for C4: a finished batch of 2 with one completed and one
failed item (not fail-fast) gets a 200 receipt. -/
theorem C4_witness :
    (complete_batch
      { state_batch_id := "B",
        op := { total_items := 2, concurrency_limit := 2,
                fail_fast := false, op_status := "running",
                current_index := 2, active_count := 0,
                completed_count := 1, failed_count := 1,
                input_items := Json.arr [Json.num 1, Json.num 2] },
        results := [{ item_index := 1, row_status := "failed",
                      output := none, error_message := some "boom" },
                    { item_index := 0, row_status := "completed",
                      output := some (Json.num 7),
                      error_message := none }] }
      "R" "n1" false).2.status_code = 200 :=
  (C4_complete_batch_aggregation
    { state_batch_id := "B",
      op := { total_items := 2, concurrency_limit := 2,
              fail_fast := false, op_status := "running",
              current_index := 2, active_count := 0,
              completed_count := 1, failed_count := 1,
              input_items := Json.arr [Json.num 1, Json.num 2] },
      results := [{ item_index := 1, row_status := "failed",
                    output := none, error_message := some "boom" },
                  { item_index := 0, row_status := "completed",
                    output := some (Json.num 7),
                    error_message := none }] }
    "R" "n1" false (by decide)).1

/-- C7: executing a sub-flow node whose parent run is at depth 10 with
depth_limit 10 fails the depth check before any query or write: no
child-run, RUN_CREATED or suspension insert happens, and the executor's
error branch yields status 500 with body
error = "Sub-flow depth limit exceeded: 11 > 10". -/
theorem C7_depth_overflow_no_writes (env : SpawnEnv) (data : SubFlowNodeData)
    (pid : Uuid) (nid : String) (h : data.depth_limit = 10) :
    spawn_child_run env data pid nid 10 =
      (Except.error (SubFlowError.depthLimitExceeded 11 10), []) ∧
    subFlowSpawnErrResult (SubFlowError.depthLimitExceeded 11 10) =
      (500,
       some (Json.obj
         [("error", Json.str "Sub-flow depth limit exceeded: 11 > 10")]),
       false) := by
  constructor
  · simp [spawn_child_run, h]
  · rfl

/-- Witness for C7 at a concrete environment and node data. -/
theorem C7_witness :
    spawn_child_run
      { workflowRow := some (7, "wf", some "v1"),
        pinnedVersionExists := true,
        versionGraph := some (Json.obj []),
        freshChildRunId := "child-uuid" }
      { workflow_id := 7, version_id := none, input := none,
        fail_on_error := false, current_depth := 10, depth_limit := 10,
        timeout_ms := 0, output_path := none, max_retries := 0 }
      "parent-run" "node-1" 10 =
      (Except.error (SubFlowError.depthLimitExceeded 11 10), []) :=
  (C7_depth_overflow_no_writes
    { workflowRow := some (7, "wf", some "v1"),
      pinnedVersionExists := true,
      versionGraph := some (Json.obj []),
      freshChildRunId := "child-uuid" }
    { workflow_id := 7, version_id := none, input := none,
      fail_on_error := false, current_depth := 10, depth_limit := 10,
      timeout_ms := 0, output_path := none, max_retries := 0 }
    "parent-run" "node-1" rfl).1

/-- C5 (counterexample): a subflow-resume for a failed child whose
sub-flow node was configured with fail_on_error = true.  The claimed
mapping (handle_resume with the configured flag) demands status 500,
but the worker's execute_node arm hard-codes fail_on_error = false and
returns 299. -/
theorem C5_counterexample :
    SubFlowResumeData.success
      { child_run_id := "child-1", output := none, success := false,
        error := some "boom" } = false ∧
    (handle_resume
      { child_run_id := "child-1", output := none, success := false,
        error := some "boom" } true).1 = 500 ∧
    (subFlowResumeExec
      { child_run_id := "child-1", output := none, success := false,
        error := some "boom" }).1 = 299 ∧
    (subFlowResumeExec
      { child_run_id := "child-1", output := none, success := false,
        error := some "boom" }).1 ≠ 500 := by
  refine ⟨rfl, rfl, rfl, ?_⟩
  decide

/-- C5 (amended): handle_resume maps the child outcome as the claim
states — success → 200 with child_run_id and output in the body,
failure with fail_on_error → 500, failure without → 299 — but the
worker's subflow-resume path calls it with fail_on_error hard-coded to
false, so a worker-processed resume returns 200 on success and 299 on
every failure, regardless of the configured flag. -/
theorem C5_resume_mapping (d : SubFlowResumeData) (foe : Bool) :
    (d.success = true →
      (handle_resume d foe).1 = 200 ∧
      (handle_resume d foe).2.get "child_run_id" =
        some (Json.str d.child_run_id) ∧
      ((handle_resume d foe).2.get "output").isSome = true) ∧
    (d.success = false → foe = true → (handle_resume d foe).1 = 500) ∧
    (d.success = false → foe = false → (handle_resume d foe).1 = 299) ∧
    subFlowResumeExec d =
      ((handle_resume d false).1, some (handle_resume d false).2, false) ∧
    (d.success = false → (subFlowResumeExec d).1 = 299) := by
  refine ⟨?_, ?_, ?_, ?_, ?_⟩
  · intro hs
    refine ⟨?_, ?_, ?_⟩ <;> simp [handle_resume, hs, Json.get, List.lookup]
  · intro hs hf
    simp [handle_resume, hs, hf]
  · intro hs hf
    simp [handle_resume, hs, hf]
  · rfl
  · intro hs
    simp [subFlowResumeExec, handle_resume, hs]

/-- Witness for C5_resume_mapping at a concrete failed resume. -/
theorem C5_witness :
    (subFlowResumeExec
      { child_run_id := "c9", output := none, success := false,
        error := none }).1 = 299 :=
  ((C5_resume_mapping
    { child_run_id := "c9", output := none, success := false, error := none }
    false).2.2.2.2) rfl

/-- C9 (code evaluated at the failing input): nodes/delay.rs execute
takes no cancellation token at all — its inline branch sleeps the full
duration unconditionally, so a token triggered during the sleep cannot
end it early (main.rs even passes cancel_token under a five-argument
signature this four-argument executor does not have).  The threshold
behaviour the claim describes does hold: duration_ms ≤ 60000 sleeps
inline and returns 200; duration_ms > 60000 inserts the DELAY_RESUME
job into the delayed-jobs sorted set with score now + duration_ms and
returns 202 with scheduled = true. -/
theorem C9_delay_sleep_not_cancellable (jobId : String)
    (runId : Option String) (now : Nat) :
    (delay_execute { duration_ms := 60000, duration_str := none }
        jobId runId now).sleptMs = 60000 ∧
    (delay_execute { duration_ms := 60000, duration_str := none }
        jobId runId now).status_code = 200 ∧
    (delay_execute { duration_ms := 60000, duration_str := none }
        jobId runId now).zaddEntry = none ∧
    (delay_execute { duration_ms := 60001, duration_str := none }
        jobId runId now).status_code = 202 ∧
    (delay_execute { duration_ms := 60001, duration_str := none }
        jobId runId now).zaddEntry =
      some (now + 60001, delayResumeJobJson jobId runId 60001) ∧
    ((delay_execute { duration_ms := 60001, duration_str := none }
        jobId runId now).body.bind (fun b => b.get "scheduled")) =
      some (Json.bool true) := by
  refine ⟨rfl, rfl, rfl, ?_, ?_, ?_⟩ <;>
    simp [delay_execute, Json.get, List.lookup]

/-- Witness for C9 at concrete job id, run id and clock. -/
theorem C9_witness :
    (delay_execute { duration_ms := 60000, duration_str := none }
        "n1" (some "R") 1700000000000).sleptMs = 60000 :=
  (C9_delay_sleep_not_cancellable "n1" (some "R") 1700000000000).1

/-- C6 (counterexample): a sub-flow job at the depth limit (the spawn
error produces status 500 with the depth diagnostic) with retry_count
0 < max_retries 3.  The claim says no retry is ever scheduled for depth
errors, but 500 is in the retryable set, so the processor logs
RETRY_SCHEDULED and re-enqueues a bumped copy. -/
theorem C6_counterexample :
    (process_job
      { id := "n1", run_id := some "R",
        node := NodeType.subFlow
          { workflow_id := 1, version_id := none, input := none,
            fail_on_error := false, current_depth := 10, depth_limit := 10,
            timeout_ms := 0, output_path := none, max_retries := 0 },
        retry_count := 0, max_retries := 3, isolated := false }
      { tokenCancelled := false,
        runStatusQuery := Except.ok (some "running"),
        eventLog := [], idemQueryFails := false,
        execOutcome :=
          subFlowSpawnErrResult
            (SubFlowError.depthLimitExceeded 11 10) }).retryScheduled =
      true ∧
    ((process_job
      { id := "n1", run_id := some "R",
        node := NodeType.subFlow
          { workflow_id := 1, version_id := none, input := none,
            fail_on_error := false, current_depth := 10, depth_limit := 10,
            timeout_ms := 0, output_path := none, max_retries := 0 },
        retry_count := 0, max_retries := 3, isolated := false }
      { tokenCancelled := false,
        runStatusQuery := Except.ok (some "running"),
        eventLog := [], idemQueryFails := false,
        execOutcome :=
          subFlowSpawnErrResult
            (SubFlowError.depthLimitExceeded 11 10) }).requeued).isSome =
      true ∧
    (process_job
      { id := "n1", run_id := some "R",
        node := NodeType.subFlow
          { workflow_id := 1, version_id := none, input := none,
            fail_on_error := false, current_depth := 10, depth_limit := 10,
            timeout_ms := 0, output_path := none, max_retries := 0 },
        retry_count := 0, max_retries := 3, isolated := false }
      { tokenCancelled := false,
        runStatusQuery := Except.ok (some "running"),
        eventLog := [], idemQueryFails := false,
        execOutcome :=
          subFlowSpawnErrResult
            (SubFlowError.depthLimitExceeded 11 10) }).events =
      [EvType.NodeStarted, EvType.NodeRetryScheduled] := by
  refine ⟨by decide, by decide, by decide⟩

/-- C6 (amended): a sub-flow or map job whose recursion depth exceeds
the limit yields a node-level 500 with a depth diagnostic, and because
500 is a retryable status the processor DOES schedule a retry
(RETRY_SCHEDULED event, re-enqueued copy with retry_count + 1) whenever
retry_count < max_retries; only when the retry budget is exhausted does
it finalize as a failure without a retry. -/
theorem C6_depth_error_is_retried (job : WorkerJob) (env : ProcEnv)
    (rid : Uuid) (st : Option String) (msg : String)
    (hdepth : ∃ c l,
      (l < c ∧
        msg = subFlowErrorMessage (SubFlowError.depthLimitExceeded c l)) ∨
      (l ≤ c ∧ msg = mapDepthLimitMessage c l))
    (hmsg1 : containsSub msg "pool timed out" = false)
    (hmsg2 : containsSub msg "Database error" = false)
    (hlc : is_lifecycle_event job.node = false)
    (hrid : job.run_id = some rid)
    (htok : env.tokenCancelled = false)
    (hq : env.runStatusQuery = Except.ok st)
    (hskip : statusSkips st = false)
    (hidem : env.idemQueryFails = false)
    (hterm : has_node_completed env.eventLog rid job.id job.retry_count = false)
    (hexec : env.execOutcome =
      (500, some (Json.obj [("error", Json.str msg)]), false)) :
    (job.retry_count < job.max_retries →
      (process_job job env).retryScheduled = true ∧
      (process_job job env).requeued = some (retryRequeuedJob job) ∧
      EvType.NodeRetryScheduled ∈ (process_job job env).events) ∧
    (job.max_retries ≤ job.retry_count →
      (process_job job env).retryScheduled = false ∧
      (process_job job env).requeued = none ∧
      EvType.NodeFailed ∈ (process_job job env).events) := by
  have hpj : process_job job env = afterChecks job env (some rid) := by
    simp [process_job, hrid, htok, hq, hskip, hlc, hidem, hterm]
  by_cases hlt : job.retry_count < job.max_retries
  · refine ⟨fun _ => ?_, fun hge => absurd hlt (by omega)⟩
    rw [hpj]
    refine ⟨?_, ?_, ?_⟩ <;>
      simp [afterChecks, hexec, hlc, is_transient_db_error, Json.get,
        hmsg1, hmsg2, is_retryable_error, hlt]
  · refine ⟨fun h => absurd h hlt, fun _ => ?_⟩
    rw [hpj]
    refine ⟨?_, ?_, ?_⟩ <;>
      simp [afterChecks, hexec, hlc, is_transient_db_error, Json.get,
        hmsg1, hmsg2, is_retryable_error, hlt]

/-- Witness for C6_depth_error_is_retried: a map job at the depth limit
with an exhausted retry budget is finalized as a failure. -/
theorem C6_witness :
    (process_job
      { id := "m1", run_id := some "R",
        node := NodeType.map
          { workflow_id := 1, version_id := none, items := [],
            concurrency := 10, fail_fast := false, timeout_ms := none,
            current_depth := 10, depth_limit := 10 },
        retry_count := 3, max_retries := 3, isolated := false }
      { tokenCancelled := false,
        runStatusQuery := Except.ok (some "running"),
        eventLog := [], idemQueryFails := false,
        execOutcome :=
          (500, some (Json.obj
            [("error", Json.str (mapDepthLimitMessage 10 10))]), false)
      }).retryScheduled = false :=
  ((C6_depth_error_is_retried
    { id := "m1", run_id := some "R",
      node := NodeType.map
        { workflow_id := 1, version_id := none, items := [],
          concurrency := 10, fail_fast := false, timeout_ms := none,
          current_depth := 10, depth_limit := 10 },
      retry_count := 3, max_retries := 3, isolated := false }
    { tokenCancelled := false,
      runStatusQuery := Except.ok (some "running"),
      eventLog := [], idemQueryFails := false,
      execOutcome :=
        (500, some (Json.obj
          [("error", Json.str (mapDepthLimitMessage 10 10))]), false) }
    "R" (some "running") (mapDepthLimitMessage 10 10)
    ⟨10, 10, Or.inr ⟨le_refl 10, rfl⟩⟩
    (by decide) (by decide) rfl rfl rfl rfl rfl rfl (by decide) rfl).2
    (by decide)).1

/-- C8 (counterexample): at next-attempt 55 the u64 computation
`2u64.pow(55) * 1000` wraps, so the computed backoff (even with zero
jitter, which is a legal draw) falls below the claimed lower bound
2^55·1000 and differs from 2^55·1000 + jitter. -/
theorem C8_counterexample :
    calculate_backoff 55 0 < 2 ^ 55 * 1000 ∧
    calculate_backoff 55 0 ≠ 2 ^ 55 * 1000 + 0 := by
  constructor <;> decide

/-- C8 (amended): for every next attempt n with 1 ≤ n ≤ 54 — the range
where `2u64.pow(n) * 1000` does not overflow u64 — and every jitter draw
in [0, 500], the backoff equals 2^n·1000 + jitter and lies in
[2^n·1000, 2^n·1000 + 500] ms; the re-enqueued job always carries
retry_count = n = previous retry_count + 1. -/
theorem C8_backoff_bounds (n j : Nat) (job : WorkerJob)
    (hn : 1 ≤ n) (hn54 : n ≤ 54) (hj : j ≤ 500) :
    calculate_backoff n j = 2 ^ n * 1000 + j ∧
    2 ^ n * 1000 ≤ calculate_backoff n j ∧
    calculate_backoff n j ≤ 2 ^ n * 1000 + 500 ∧
    (retryRequeuedJob job).retry_count = job.retry_count + 1 := by
  have hpow : 2 ^ n ≤ 2 ^ 54 := Nat.pow_le_pow_right (by norm_num) hn54
  have h64 : (2 : Nat) ^ 54 * 1000 + 500 < 2 ^ 64 := by norm_num
  have hlt : 2 ^ n * 1000 + j < 2 ^ 64 := by
    calc 2 ^ n * 1000 + j ≤ 2 ^ 54 * 1000 + 500 := by
          exact Nat.add_le_add (Nat.mul_le_mul_right 1000 hpow) hj
      _ < 2 ^ 64 := h64
  have heq : calculate_backoff n j = 2 ^ n * 1000 + j := by
    unfold calculate_backoff U64
    have h1 : 2 ^ n % 2 ^ 64 = 2 ^ n :=
      Nat.mod_eq_of_lt (lt_of_le_of_lt hpow (by norm_num))
    have h2 : 2 ^ n * 1000 % 2 ^ 64 = 2 ^ n * 1000 :=
      Nat.mod_eq_of_lt (by omega)
    simp only [h1, h2]
    exact Nat.mod_eq_of_lt hlt
  refine ⟨heq, ?_, ?_, rfl⟩ <;> omega

/-- Witness for C8_backoff_bounds at n = 1, jitter = 137. -/
theorem C8_witness :
    calculate_backoff 1 137 = 2 ^ 1 * 1000 + 137 ∧
    2 ^ 1 * 1000 ≤ calculate_backoff 1 137 ∧
    calculate_backoff 1 137 ≤ 2 ^ 1 * 1000 + 500 ∧
    (retryRequeuedJob
      { id := "n1", run_id := some "R", node := NodeType.router (),
        retry_count := 0, max_retries := 3,
        isolated := false }).retry_count = 0 + 1 :=
  C8_backoff_bounds 1 137
    { id := "n1", run_id := some "R", node := NodeType.router (),
      retry_count := 0, max_retries := 3, isolated := false }
    (by decide) (by decide) (by decide)

-- ===========================================================================
-- Claims
-- ===========================================================================

/-- C10: for a run_id with no token stored in the registry, cancel is a
no-op (it neither creates nor triggers a token), is_cancelled returns
false, and a subsequent get_or_create — before or after such a cancel —
returns a fresh untriggered token; a cancel arriving before any job of
the run registered leaves no trace. -/
theorem C10_cancel_unknown_run_noop (r : Registry) (rid : Uuid)
    (h : r.lookup rid = none) :
    Registry.cancel r rid = r ∧
    Registry.is_cancelled r rid = false ∧
    (Registry.get_or_create r rid).1 = false ∧
    (Registry.get_or_create (Registry.cancel r rid) rid).1 = false := by
  refine ⟨?_, ?_, ?_, ?_⟩ <;>
    simp [Registry.cancel, Registry.is_cancelled, Registry.get_or_create, h]

/-- Witness for C10 at the concrete registry [("other-run", true)] and
the unregistered run "run-1". -/
theorem C10_witness :
    Registry.cancel [("other-run", true)] "run-1" = [("other-run", true)] ∧
    Registry.is_cancelled [("other-run", true)] "run-1" = false ∧
    (Registry.get_or_create [("other-run", true)] "run-1").1 = false ∧
    (Registry.get_or_create
      (Registry.cancel [("other-run", true)] "run-1") "run-1").1 = false :=
  C10_cancel_unknown_run_noop [("other-run", true)] "run-1" (by decide)
